import Mathlib

/-!
Shallow embedding of the Python quiz service (src/chatbot.py and src/main.py)
and proofs about its specified behaviour.

Machine integers are modelled as Int/Nat (Python integers are unbounded, so no
wrap-around is involved).  Fallible handler code returns HResult; an uncaught
Python exception inside a handler body is modelled as an HTTP 500 error, and a
pydantic request-validation failure as an HTTP 422 error, which is what FastAPI
produces for those situations.
-/

set_option maxHeartbeats 1000000

namespace Quiz

/-- The Question dataclass of chatbot.py (lines 6-11). -/
structure Question where
  question_text : String
  options : List String
  correct_option_key : String
  explanation : String
  deriving DecidableEq, Repr

/-- LETTER_KEYS of chatbot.py line 14. -/
def LETTER_KEYS : List String := ["a", "b", "c", "d"]

/-- build_questions of chatbot.py lines 17-49: the fixed five-question bank. -/
def build_questions : List Question :=
  [ ⟨"What is the correct file extension for Python files?",
     [".pyt", ".pt", ".py", ".python"],
     "c",
     ".py is the standard extension for Python source files."⟩,
    ⟨"Which keyword is used to define a function in Python?",
     ["func", "def", "function", "define"],
     "b",
     "Functions in Python are defined using the \x27def\x27 keyword."⟩,
    ⟨"How do you write a comment in Python?",
     ["// comment", "<!-- comment -->", "/* comment */", "# comment"],
     "d",
     "Python uses the hash symbol (#) for single-line comments."⟩,
    ⟨"What is the output type of input() in Python 3?",
     ["int", "str", "float", "bool"],
     "b",
     "input() returns a string. Convert it if you need another type."⟩,
    ⟨"Which of the following is a valid list in Python?",
     ["{1, 2, 3}", "(1, 2, 3)", "[1, 2, 3]", "<1, 2, 3>"],
     "c",
     "Lists use square brackets, e.g., [1, 2, 3]."⟩ ]

/-- QUESTIONS of main.py line 29: the bank is built once at startup. -/
def QUESTIONS : List Question := build_questions

/-- An HTTP error reply: status code and detail message. -/
structure HTTPError where
  status : Nat
  detail : String
  deriving DecidableEq, Repr

/-- The outcome of an HTTP handler: a success value or an HTTP error reply. -/
inductive HResult (α : Type) where
  | ok (value : α)
  | error (e : HTTPError)
  deriving DecidableEq, Repr

/-- Whether a handler outcome is a success. -/
def HResult.isOk {α : Type} : HResult α → Bool
  | .ok _ => true
  | .error _ => false

/-- Lower-casing of one character, as Python str.lower acts on ASCII. -/
def lowerChar (c : Char) : Char :=
  if decide (65 ≤ c.toNat) && decide (c.toNat ≤ 90) then Char.ofNat (c.toNat + 32) else c

/-- Python str.lower, modelled over the character list of the string. -/
def lowerStr (s : String) : String := ⟨s.data.map lowerChar⟩

/-- The whitespace characters removed by Python str.strip. -/
def isPyWhitespace (c : Char) : Bool :=
  c == ' ' || c == '\t' || c == '\n' || c == '\x0d' || c == '\x0b' || c == '\x0c'

/-- Python str.strip, modelled over the character list of the string. -/
def stripStr (s : String) : String :=
  ⟨((s.data.dropWhile isPyWhitespace).reverse.dropWhile isPyWhitespace).reverse⟩

/-- The detail string of the 404 HTTPException raised by main.py
(lines 199-202, 228-231, 249-252), for a bank of the given size. -/
def notFoundDetailB (bank : List Question) (question_id : Int) : String :=
  "Question with ID " ++ toString question_id ++ " not found. Available IDs: 0-"
    ++ toString (bank.length - 1)

/-- The response shape produced by question_to_response of main.py:
the two answer fields are present exactly when include_answer was set. -/
structure QResponse where
  id : Int
  question_text : String
  options : List String
  correct_option_key : Option String
  explanation : Option String
  deriving DecidableEq, Repr

/-- question_to_response of main.py lines 128-140. -/
def question_to_response (q : Question) (question_id : Int) (include_answer : Bool) :
    QResponse :=
  ⟨question_id, q.question_text, q.options,
   if include_answer then some q.correct_option_key else none,
   if include_answer then some q.explanation else none⟩

/-- get_all_questions of main.py lines 177-188, over an arbitrary bank. -/
def get_all_questionsB (bank : List Question) : List QResponse :=
  bank.enum.map (fun p => question_to_response p.2 (p.1 : Int) false)

/-- get_question of main.py lines 191-203, over an arbitrary bank. -/
def get_questionB (bank : List Question) (question_id : Int) :
    HResult QResponse :=
  if h : question_id < 0 ∨ (bank.length : Int) ≤ question_id then
    .error ⟨404, notFoundDetailB bank question_id⟩
  else
    .ok (question_to_response
      (bank.get ⟨question_id.toNat, by push_neg at h; omega⟩) question_id false)

/-- get_question_detail of main.py lines 217-232, over an arbitrary bank. -/
def get_question_detailB (bank : List Question) (question_id : Int) :
    HResult QResponse :=
  if h : question_id < 0 ∨ (bank.length : Int) ≤ question_id then
    .error ⟨404, notFoundDetailB bank question_id⟩
  else
    .ok (question_to_response
      (bank.get ⟨question_id.toNat, by push_neg at h; omega⟩) question_id true)

/-- get_random_question of main.py lines 206-214, over an arbitrary bank.
The uniform draw random.randint(0, len-1) is modelled by reducing an arbitrary
natural draw into the index range; an empty bank would raise in Python, which
is modelled as a 500 error. -/
def get_random_questionB (bank : List Question) (draw : Nat) : HResult QResponse :=
  match bank.get? (draw % bank.length) with
  | some q => .ok (question_to_response q ((draw % bank.length : Nat) : Int) false)
  | none => .error ⟨500, "ValueError: empty range for randrange"⟩

/-- The body submitted to POST /api/quiz/submit (AnswerSubmitRequest of
main.py lines 69-80), before pydantic field validation. -/
structure AnswerSubmitRequest where
  question_id : Int
  answer : String
  deriving DecidableEq, Repr

/-- AnswerResponse of main.py lines 83-98. -/
structure AnswerResponse where
  is_correct : Bool
  correct_answer : String
  correct_answer_text : String
  explanation : String
  deriving DecidableEq, Repr

/-- The submit_answer handler body of main.py lines 235-266, over an arbitrary
bank.  LETTER_KEYS.index raising ValueError and the list indexing raising
IndexError are modelled as 500 errors, since FastAPI turns an uncaught
exception into a 500 reply. -/
def submit_answerB (bank : List Question) (request : AnswerSubmitRequest) :
    HResult AnswerResponse :=
  if h : request.question_id < 0 ∨ (bank.length : Int) ≤ request.question_id then
    .error ⟨404, notFoundDetailB bank request.question_id⟩
  else
    let question := bank.get ⟨request.question_id.toNat, by push_neg at h; omega⟩
    let is_correct := lowerStr request.answer == lowerStr question.correct_option_key
    match LETTER_KEYS.indexOf? question.correct_option_key with
    | none => .error ⟨500, "ValueError"⟩
    | some correct_idx =>
      match question.options.get? correct_idx with
      | none => .error ⟨500, "IndexError"⟩
      | some correct_answer_text =>
        .ok ⟨is_correct, question.correct_option_key, correct_answer_text,
             question.explanation⟩

/-- The pydantic pattern constraint on the answer field of main.py line 72:
a single character in the range a-d. -/
def matchesAnswerPattern (s : String) : Bool :=
  s.data.length == 1 && s.data.all (fun c => decide (97 ≤ c.toNat) && decide (c.toNat ≤ 100))

/-- The detail of FastAPI's 422 reply to a body that fails pydantic
validation, modelled as a fixed string. -/
def requestValidationDetail : String := "request body failed validation"

/-- The submit endpoint as seen over HTTP, over an arbitrary bank: pydantic
first validates question_id ≥ 0 (main.py line 71) and the answer pattern
(line 72), rejecting the request with status 422 before the handler body
runs; only a valid body reaches submit_answer. -/
def submit_endpointB (bank : List Question) (request : AnswerSubmitRequest) :
    HResult AnswerResponse :=
  if request.question_id < 0 || !matchesAnswerPattern request.answer then
    .error ⟨422, requestValidationDetail⟩
  else submit_answerB bank request

/-- get_question specialised to the startup bank. -/
def get_question (question_id : Int) : HResult QResponse :=
  get_questionB QUESTIONS question_id

/-- get_question_detail specialised to the startup bank. -/
def get_question_detail (question_id : Int) : HResult QResponse :=
  get_question_detailB QUESTIONS question_id

/-- get_all_questions specialised to the startup bank. -/
def get_all_questions : List QResponse :=
  get_all_questionsB QUESTIONS

/-- get_random_question specialised to the startup bank. -/
def get_random_question (draw : Nat) : HResult QResponse :=
  get_random_questionB QUESTIONS draw

/-- submit_answer handler specialised to the startup bank. -/
def submit_answer (request : AnswerSubmitRequest) : HResult AnswerResponse :=
  submit_answerB QUESTIONS request

/-- Full submit endpoint (validation plus handler) on the startup bank. -/
def submit_endpoint (request : AnswerSubmitRequest) : HResult AnswerResponse :=
  submit_endpointB QUESTIONS request

/-! ## Routing of GET requests

FastAPI (through Starlette) tries the registered routes in declaration order
and dispatches to the first whose path template matches the request path; a
path parameter segment matches any single segment, and the int annotation on
the handler argument is enforced only after routing, failing the request with
a 422 reply when the captured text is not an integer. -/

/-- One segment of a route template: a literal or a path parameter. -/
inductive Seg where
  | lit (s : String)
  | param
  deriving DecidableEq, Repr

/-- The GET handlers of main.py. -/
inductive HandlerId where
  | root
  | health_check
  | get_stats
  | get_all
  | get_one
  | get_random
  | get_detail
  deriving DecidableEq, Repr

/-- The GET routes of main.py in declaration order (lines 145, 162, 171, 177,
191, 206, 217): the parameterised question route is declared before the
random route. -/
def getRoutes : List (List Seg × HandlerId) :=
  [ ([], .root),
    ([.lit "api", .lit "health"], .health_check),
    ([.lit "api", .lit "stats"], .get_stats),
    ([.lit "api", .lit "questions"], .get_all),
    ([.lit "api", .lit "questions", .param], .get_one),
    ([.lit "api", .lit "questions", .lit "random"], .get_random),
    ([.lit "api", .lit "questions", .param, .lit "detail"], .get_detail) ]

/-- Match a route template against the request path segments, collecting the
text captured by parameter segments. -/
def segsMatch : List Seg → List String → Option (List String)
  | [], [] => some []
  | Seg.lit s :: ps, x :: xs => if s = x then segsMatch ps xs else none
  | Seg.param :: ps, x :: xs => (segsMatch ps xs).map (fun l => x :: l)
  | _, _ => none

/-- First route of the table matching the path, in declaration order. -/
def firstMatch : List (List Seg × HandlerId) → List String →
    Option (HandlerId × List String)
  | [], _ => none
  | r :: rs, path =>
    match segsMatch r.1 path with
    | some params => some (r.2, params)
    | none => firstMatch rs path

/-- Digit accumulation for decimal integer parsing. -/
def parseDigitsAux : List Char → Nat → Option Nat
  | [], acc => some acc
  | c :: cs, acc =>
    if decide (48 ≤ c.toNat) && decide (c.toNat ≤ 57) then
      parseDigitsAux cs (acc * 10 + (c.toNat - 48))
    else none

/-- Parsing of a path segment as a decimal integer, as the int annotation on
the handler argument requires: an optional sign followed by digits. -/
def parseIntSeg (s : String) : Option Int :=
  match s.data with
  | [] => none
  | c :: cs =>
    if c = '-' then
      match cs with
      | [] => none
      | _ :: _ => (parseDigitsAux cs 0).map (fun n => -(n : Int))
    else (parseDigitsAux (c :: cs) 0).map (fun n => (n : Int))

/-- The possible success payloads of the GET endpoints. -/
inductive GetReply where
  | rootInfo
  | health
  | stats (total_questions : Nat)
  | questions (l : List QResponse)
  | question (r : QResponse)
  | questionDetail (r : QResponse)
  deriving DecidableEq, Repr

/-- A GET request dispatched through the route table to the handlers of
main.py.  The argument draw stands for the process random state consumed by
random.randint when get_random_question runs. -/
def handleGet (draw : Nat) (path : List String) : HResult GetReply :=
  match firstMatch getRoutes path with
  | none => .error ⟨404, "Not Found"⟩
  | some (h, params) =>
    match h, params with
    | .root, _ => .ok .rootInfo
    | .health_check, _ => .ok .health
    | .get_stats, _ => .ok (.stats QUESTIONS.length)
    | .get_all, _ => .ok (.questions get_all_questions)
    | .get_one, [p] =>
      match parseIntSeg p with
      | none => .error ⟨422, requestValidationDetail⟩
      | some id =>
        match get_question id with
        | .ok r => .ok (.question r)
        | .error e => .error e
    | .get_random, _ =>
      match get_random_question draw with
      | .ok r => .ok (.question r)
      | .error e => .error e
    | .get_detail, [p] =>
      match parseIntSeg p with
      | none => .error ⟨422, requestValidationDetail⟩
      | some id =>
        match get_question_detail id with
        | .ok r => .ok (.questionDetail r)
        | .error e => .error e
    | _, _ => .error ⟨500, "route captured an unexpected parameter list"⟩

/-! ## The server state and the request step

main.py holds its only module state in QUESTIONS; a handler call is modelled
as a step taking the state and a request to a response and the state after
the call.  No handler body assigns to module state, so every arm of the step
returns the state it received. -/

/-- The request sum of the API surface of main.py. -/
inductive ApiRequest where
  | root
  | health
  | stats
  | listQuestions
  | question (question_id : Int)
  | randomQuestion (draw : Nat)
  | questionDetail (question_id : Int)
  | submit (request : AnswerSubmitRequest)
  deriving DecidableEq, Repr

/-- The response sum of the API surface of main.py. -/
inductive ApiResponse where
  | rootInfo
  | health
  | stats (total_questions : Nat)
  | questions (l : List QResponse)
  | question (r : QResponse)
  | questionDetail (r : QResponse)
  | answer (r : AnswerResponse)
  | failure (e : HTTPError)
  deriving DecidableEq, Repr

/-- The module state of main.py: the question bank loaded at startup. -/
structure ServerState where
  questions : List Question
  deriving DecidableEq, Repr

/-- Lift a handler outcome into the response sum. -/
def ofResult {α : Type} (f : α → ApiResponse) : HResult α → ApiResponse
  | .ok a => f a
  | .error e => .failure e

/-- One request handled against the server state, returning the response and
the state after the request. -/
def appStep (s : ServerState) (req : ApiRequest) : ApiResponse × ServerState :=
  match req with
  | .root => (.rootInfo, s)
  | .health => (.health, s)
  | .stats => (.stats s.questions.length, s)
  | .listQuestions => (.questions (get_all_questionsB s.questions), s)
  | .question id => (ofResult .question (get_questionB s.questions id), s)
  | .randomQuestion draw => (ofResult .question (get_random_questionB s.questions draw), s)
  | .questionDetail id => (ofResult .questionDetail (get_question_detailB s.questions id), s)
  | .submit r => (ofResult .answer (submit_endpointB s.questions r), s)

/-! ## The CLI quiz loop

run_quiz_loop of chatbot.py lines 73-105.  Standard input is modelled as a
finite list of raw lines; the reshuffle performed at the start of each round
is modelled by a function giving the question order of each round; the
endless while loop is bounded by fuel. -/

/-- The session counters of run_quiz_loop: score and total_answered. -/
structure CliState where
  score : Nat
  total_answered : Nat
  deriving DecidableEq, Repr

/-- Normalisation applied to a raw input line (chatbot.py line 67):
strip then lower. -/
def normalizeInput (raw : String) : String := lowerStr (stripStr raw)

/-- The tokens accepted by ask_for_choice (chatbot.py line 68). -/
def isValidToken (t : String) : Bool :=
  t == "q" || t == "s" || decide (t ∈ LETTER_KEYS)

/-- ask_for_choice of chatbot.py lines 65-70: read lines until one
normalises to an accepted token, returning it with the unread input; none
models exhausted input. -/
def ask_for_choice : List String → Option (String × List String)
  | [] => none
  | raw :: rest =>
    let t := normalizeInput raw
    if isValidToken t then some (t, rest) else ask_for_choice rest

/-- The final line printed on quit (chatbot.py line 89). -/
def exitMessage (total_answered score : Nat) : String :=
  "\nExiting quiz. You answered " ++ toString total_answered
    ++ " question(s) with " ++ toString score ++ " correct."

/-- The line printed on skip (chatbot.py line 93). -/
def skippedMessage : String := "Skipped.\n"

/-- The line printed on a correct answer (chatbot.py line 99). -/
def correctMessage : String := "Correct! 🎉"

/-- The line printed on an incorrect answer (chatbot.py line 103). -/
def incorrectMessage (key text : String) : String :=
  "Incorrect. The correct answer is \x27" ++ key ++ ") " ++ text ++ "\x27."

/-- The explanation line (chatbot.py line 104). -/
def explanationMessage (e : String) : String := "Explanation: " ++ e

/-- The running score line (chatbot.py line 105). -/
def scoreMessage (score total_answered : Nat) : String :=
  "Score: " ++ toString score ++ "/" ++ toString total_answered ++ "\n"

/-- The outcome of one body of the for loop once a choice token is in hand:
quit with the final line, or continue with the new counters and the lines
printed, or the defensive out-of-range failure of LETTER_KEYS.index and the
option lookup (chatbot.py lines 101-102). -/
inductive IterResult where
  | quit (msg : String)
  | cont (st : CliState) (out : List String)
  | oob
  deriving DecidableEq, Repr

/-- The body of the for loop of run_quiz_loop (chatbot.py lines 88-105),
applied to the choice token returned by ask_for_choice. -/
def feedbackStep (q : Question) (st : CliState) (choice : String) : IterResult :=
  if choice = "q" then .quit (exitMessage st.total_answered st.score)
  else if choice = "s" then .cont st [skippedMessage]
  else if choice = q.correct_option_key then
    .cont ⟨st.score + 1, st.total_answered + 1⟩
      [correctMessage, explanationMessage q.explanation,
       scoreMessage (st.score + 1) (st.total_answered + 1)]
  else
    match LETTER_KEYS.indexOf? q.correct_option_key with
    | none => .oob
    | some correct_idx =>
      match q.options.get? correct_idx with
      | none => .oob
      | some correct_text =>
        .cont ⟨st.score, st.total_answered + 1⟩
          [incorrectMessage q.correct_option_key correct_text,
           explanationMessage q.explanation,
           scoreMessage st.score (st.total_answered + 1)]

/-- The outcome of the whole loop: return after q with the state at that
point and the final line, the defensive failure, exhausted input, or
exhausted fuel. -/
inductive LoopResult where
  | quit (st : CliState) (msg : String)
  | oob
  | inputExhausted (st : CliState)
  | fuelOut (st : CliState)
  deriving DecidableEq, Repr

/-- The while loop of run_quiz_loop: current is the rest of the questions of
the running round, and perm gives the shuffled order of each later round. -/
def runLoop (perm : Nat → List Question) :
    Nat → Nat → List Question → CliState → List String → LoopResult
  | 0, _, _, st, _ => .fuelOut st
  | fuel + 1, roundIdx, [], st, inputs =>
    runLoop perm fuel (roundIdx + 1) (perm roundIdx) st inputs
  | fuel + 1, roundIdx, q :: qs, st, inputs =>
    match ask_for_choice inputs with
    | none => .inputExhausted st
    | some (choice, rest) =>
      match feedbackStep q st choice with
      | .quit msg => .quit st msg
      | .cont st' _ => runLoop perm fuel roundIdx qs st' rest
      | .oob => .oob

/-- run_quiz_loop of chatbot.py lines 73-105: counters start at zero and the
first round runs through the order perm 0. -/
def run_quiz_loop (perm : Nat → List Question) (fuel : Nat) (inputs : List String) :
    LoopResult :=
  runLoop perm fuel 1 (perm 0) ⟨0, 0⟩ inputs

/-! ## Helper definitions and lemmas -/

/-- The bank entry at a valid position. -/
def bankQ (i : Fin 5) : Question := QUESTIONS.get ⟨i.1, i.2⟩

/-- Whether a handler outcome is a 404 reply. -/
def is404 {α : Type} : HResult α → Bool
  | .error e => e.status == 404
  | .ok _ => false

lemma quKeys_len : (QUESTIONS.length : Int) = 5 := by decide

/-- Evaluation of the submit handler body at any valid position: it always
succeeds, the correctness bit is the case-insensitive comparison, and the
text is the option at the index of the correct key. -/
lemma submit_answer_ok (i : Fin 5) (ans : String) :
    submit_answer ⟨(i.1 : Int), ans⟩ =
      .ok ⟨lowerStr ans == lowerStr (bankQ i).correct_option_key,
           (bankQ i).correct_option_key,
           (bankQ i).options.getD (LETTER_KEYS.indexOf (bankQ i).correct_option_key) "",
           (bankQ i).explanation⟩ := by
  fin_cases i <;> rfl

/-- A letter of LETTER_KEYS satisfies the pydantic answer pattern. -/
lemma letter_matchesAnswerPattern (ans : String) (h : ans ∈ LETTER_KEYS) :
    matchesAnswerPattern ans = true := by
  fin_cases h <;> decide

/-! ## Claims -/

/-- Claim C1: for every question_id in the bank range and every answer letter
a, b, c or d, POST /api/quiz/submit succeeds, its is_correct field is true
exactly when the answer equals the question's correct_option_key under
case-insensitive comparison, and its correct_answer_text field is the
question's options entry at the index of correct_option_key. -/
theorem submit_resolves_answers (i : Fin 5) (ans : String) (h : ans ∈ LETTER_KEYS) :
    submit_endpoint ⟨(i.1 : Int), ans⟩ =
      .ok ⟨lowerStr ans == lowerStr (bankQ i).correct_option_key,
           (bankQ i).correct_option_key,
           (bankQ i).options.getD (LETTER_KEYS.indexOf (bankQ i).correct_option_key) "",
           (bankQ i).explanation⟩ := by
  fin_cases h <;> fin_cases i <;> rfl

/-- Claim C1 witness: submitting question_id 0 with answer c yields
is_correct true and correct_answer_text ".py". -/
theorem submit_resolves_answers_witness :
    submit_endpoint ⟨0, "c"⟩ =
      .ok ⟨true, "c", ".py", ".py is the standard extension for Python source files."⟩ :=
  (submit_resolves_answers ⟨0, by decide⟩ "c" (by decide)).trans (by decide)

/-- Claim C2: the claim asserts that GET /api/questions/random always
succeeds with a uniformly drawn question, but the code registers the route
/api/questions/(question_id) before /api/questions/random, so the literal
path segment random is captured by the parameterised route, fails integer
validation, and every call is answered 422 without reaching the
get_random_question handler; whatever the state of the random generator, no
success reply is possible. -/
theorem random_route_is_shadowed (draw : Nat) :
    handleGet draw ["api", "questions", "random"] =
      .error ⟨422, requestValidationDetail⟩ ∧
    firstMatch getRoutes ["api", "questions", "random"] =
      some (.get_one, ["random"]) := by
  exact ⟨rfl, rfl⟩

/-- Claim C3 counterexample: POST /api/quiz/submit with question_id -1 does
not return 404 as the claim asserts for every out-of-range id: the pydantic
bound question_id ≥ 0 rejects the body with status 422 before the handler's
range check can run. -/
theorem submit_negative_id_not_404 :
    is404 (submit_endpoint ⟨-1, "a"⟩) = false ∧
    submit_endpoint ⟨-1, "a"⟩ = .error ⟨422, requestValidationDetail⟩ :=
  ⟨rfl, rfl⟩

/-- Claim C3 amended: for ids outside the bank range, the two GET endpoints
return 404 with a detail naming the range 0-4; the submit endpoint returns
that 404 for id ≥ 5, while a negative id is rejected with 422 by request
validation before the handler runs; for ids inside the range none of the
three returns 404. -/
theorem notfound_handling (id : Int) :
    ((id < 0 ∨ 5 ≤ id) →
      get_question id = .error ⟨404, notFoundDetailB QUESTIONS id⟩ ∧
      get_question_detail id = .error ⟨404, notFoundDetailB QUESTIONS id⟩ ∧
      notFoundDetailB QUESTIONS id =
        ("Question with ID " ++ toString id) ++ " not found. Available IDs: 0-4" ∧
      (5 ≤ id → ∀ ans, matchesAnswerPattern ans = true →
        submit_endpoint ⟨id, ans⟩ = .error ⟨404, notFoundDetailB QUESTIONS id⟩) ∧
      (id < 0 → ∀ ans, submit_endpoint ⟨id, ans⟩ =
        .error ⟨422, requestValidationDetail⟩)) ∧
    (0 ≤ id → id < 5 →
      (get_question id).isOk = true ∧
      (get_question_detail id).isOk = true ∧
      ∀ ans, is404 (submit_endpoint ⟨id, ans⟩) = false) := by
  constructor
  · intro hout
    have hc : id < 0 ∨ (QUESTIONS.length : Int) ≤ id := by rw [quKeys_len]; exact hout
    refine ⟨?_, ?_, ?_, ?_, ?_⟩
    · unfold get_question get_questionB
      rw [dif_pos hc]
    · unfold get_question_detail get_question_detailB
      rw [dif_pos hc]
    · unfold notFoundDetailB
      rw [String.append_assoc, String.append_assoc]
      rfl
    · intro h5 ans hans
      have hcond : (decide (id < 0) || !matchesAnswerPattern ans) = false := by
        simp [hans]
        omega
      unfold submit_endpoint submit_endpointB
      rw [hcond]
      simp only [Bool.false_eq_true, if_false]
      unfold submit_answerB
      rw [dif_pos hc]
    · intro hneg ans
      have hcond : (decide (id < 0) || !matchesAnswerPattern ans) = true := by
        simp
        omega
      unfold submit_endpoint submit_endpointB
      rw [hcond]
      simp
  · intro h0 h5
    have hc : ¬ (id < 0 ∨ (QUESTIONS.length : Int) ≤ id) := by rw [quKeys_len]; omega
    refine ⟨?_, ?_, ?_⟩
    · unfold get_question get_questionB
      rw [dif_neg hc]
      rfl
    · unfold get_question_detail get_question_detailB
      rw [dif_neg hc]
      rfl
    · intro ans
      by_cases hp : matchesAnswerPattern ans = true
      · have hcond : (decide (id < 0) || !matchesAnswerPattern ans) = false := by
          simp [hp]
          omega
        unfold submit_endpoint submit_endpointB
        rw [hcond]
        simp only [Bool.false_eq_true, if_false]
        interval_cases id <;> rfl
      · have hcond : (decide (id < 0) || !matchesAnswerPattern ans) = true := by
          simp [hp]
        unfold submit_endpoint submit_endpointB
        rw [hcond]
        simp [is404]

/-- Claim C3 witness: GET /api/questions/99 is a 404 naming the range 0-4,
and the in-range id 2 is served without a 404. -/
theorem notfound_handling_witness :
    get_question 99 = .error ⟨404, notFoundDetailB QUESTIONS 99⟩ ∧
    (get_question 2).isOk = true :=
  ⟨((notfound_handling 99).1 (by omega)).1,
   ((notfound_handling 2).2 (by omega) (by omega)).1⟩

/-- Claim C4: every question of the bank built by build_questions has exactly
four options and a correct_option_key among a, b, c, d; the bank is the value
built once at startup, and no request changes the server state. -/
theorem bank_invariant :
    (∀ q ∈ QUESTIONS, q.options.length = 4 ∧ q.correct_option_key ∈ LETTER_KEYS) ∧
    QUESTIONS = build_questions ∧
    (∀ (s : ServerState) (req : ApiRequest), (appStep s req).2 = s) := by
  refine ⟨by decide, rfl, ?_⟩
  intro s req
  cases req <;> rfl

/-- Claim C4 witness: the first bank entry satisfies the invariant and a
request leaves the startup state unchanged. -/
theorem bank_invariant_witness :
    (QUESTIONS.get ⟨0, by decide⟩).options.length = 4 ∧
    (QUESTIONS.get ⟨0, by decide⟩).correct_option_key ∈ LETTER_KEYS ∧
    (appStep ⟨QUESTIONS⟩ .stats).2 = ⟨QUESTIONS⟩ := by
  obtain ⟨h1, _, h3⟩ := bank_invariant
  exact ⟨(h1 _ (by decide)).1, (h1 _ (by decide)).2, h3 ⟨QUESTIONS⟩ .stats⟩

/-- Claim C5: for every valid id, the plain and list responses carry exactly
id, question_text and options with the answer fields absent, the detail
response additionally carries the bank entry's correct_option_key and
explanation, and the list enumerates the bank in order with id equal to
position. -/
theorem response_shapes (i : Fin 5) :
    get_question (i.1 : Int) =
      .ok ⟨(i.1 : Int), (bankQ i).question_text, (bankQ i).options, none, none⟩ ∧
    get_question_detail (i.1 : Int) =
      .ok ⟨(i.1 : Int), (bankQ i).question_text, (bankQ i).options,
           some (bankQ i).correct_option_key, some (bankQ i).explanation⟩ ∧
    get_all_questions.length = QUESTIONS.length ∧
    get_all_questions.get? i.1 =
      some ⟨(i.1 : Int), (bankQ i).question_text, (bankQ i).options, none, none⟩ := by
  fin_cases i <;> exact ⟨rfl, rfl, rfl, rfl⟩

/-- Claim C6: handling a submission twice with the same body gives identical
responses, the submission leaves the server state unchanged, and so does
every other request. -/
theorem submit_deterministic_stateless (s : ServerState) (r : AnswerSubmitRequest) :
    (appStep s (.submit r)).1 = (appStep (appStep s (.submit r)).2 (.submit r)).1 ∧
    (appStep s (.submit r)).2 = s ∧
    (∀ req : ApiRequest, (appStep s req).2 = s) := by
  refine ⟨rfl, rfl, ?_⟩
  intro req
  cases req <;> rfl

/-- Claim C7: whenever the loop is at a question and the next accepted input
token is q, the runner returns the terminal result carrying the current
tally; started with q as first input, the tally is 0 answered and 0 correct
and the printed line spells that out. -/
theorem quit_prints_tally (perm : Nat → List Question) (fuel roundIdx : Nat)
    (q : Question) (qs : List Question) (st : CliState) (inputs rest : List String)
    (hc : ask_for_choice inputs = some ("q", rest)) :
    runLoop perm (fuel + 1) roundIdx (q :: qs) st inputs =
      .quit st (exitMessage st.total_answered st.score) ∧
    (perm 0 = q :: qs →
      run_quiz_loop perm (fuel + 1) inputs = .quit ⟨0, 0⟩ (exitMessage 0 0) ∧
      exitMessage 0 0 =
        "\nExiting quiz. You answered 0 question(s) with 0 correct.") := by
  constructor
  · simp [runLoop, hc, feedbackStep]
  · intro h0
    refine ⟨?_, rfl⟩
    unfold run_quiz_loop
    rw [h0]
    simp [runLoop, hc, feedbackStep]

/-- Claim C7 witness: entering q immediately after start ends the loop with
the zero tally. -/
theorem quit_prints_tally_witness :
    run_quiz_loop (fun _ => build_questions) 1 ["q"] = .quit ⟨0, 0⟩ (exitMessage 0 0) := by
  have h := quit_prints_tally (fun _ => build_questions) 0 1
    (build_questions.get ⟨0, by decide⟩) (build_questions.drop 1) ⟨0, 0⟩ ["q"] []
    (by decide)
  exact (h.2 (by decide)).1

/-- Claim C8: the input token s leaves score and total_answered unchanged,
prints only the skip line rather than the feedback lines, and the loop moves
on to the next question. -/
theorem skip_is_frame (perm : Nat → List Question) (fuel roundIdx : Nat)
    (q : Question) (qs : List Question) (st : CliState) (inputs rest : List String)
    (hc : ask_for_choice inputs = some ("s", rest)) :
    feedbackStep q st "s" = .cont st [skippedMessage] ∧
    runLoop perm (fuel + 1) roundIdx (q :: qs) st inputs =
      runLoop perm fuel roundIdx qs st rest := by
  refine ⟨rfl, ?_⟩
  simp [runLoop, hc, feedbackStep]

/-- Claim C8 witness: skipping the first question leaves the zero counters in
place and advances the loop. -/
theorem skip_is_frame_witness :
    feedbackStep (build_questions.get ⟨0, by decide⟩) ⟨0, 0⟩ "s" =
      .cont ⟨0, 0⟩ [skippedMessage] :=
  (skip_is_frame (fun _ => build_questions) 0 1 (build_questions.get ⟨0, by decide⟩)
    [] ⟨0, 0⟩ ["s"] [] (by decide)).1

/-- How one loop body moves the counters: a continue either leaves both
counters in place (skip) or raises total_answered by one and score by at
most one (an answered question). -/
lemma feedback_counters (q : Question) (st : CliState) (choice : String)
    (st' : CliState) (out : List String)
    (h : feedbackStep q st choice = .cont st' out) :
    (st'.total_answered = st.total_answered ∧ st'.score = st.score) ∨
    (st'.total_answered = st.total_answered + 1 ∧
      (st'.score = st.score ∨ st'.score = st.score + 1)) := by
  unfold feedbackStep at h
  split at h
  · simp at h
  · split at h
    · injection h with h1 _
      subst h1
      exact .inl ⟨rfl, rfl⟩
    · split at h
      · injection h with h1 _
        subst h1
        exact .inr ⟨rfl, .inr rfl⟩
      · split at h
        · simp at h
        · split at h
          · simp at h
          · injection h with h1 _
            subst h1
            exact .inr ⟨rfl, .inl rfl⟩

/-- Counter bounds carried along the loop: starting from score ≤
total_answered, any terminal tally still satisfies the bound and both
counters only grew. -/
lemma runLoop_counters (perm : Nat → List Question) (fuel : Nat) :
    ∀ (roundIdx : Nat) (cur : List Question) (st : CliState) (inputs : List String)
      (st' : CliState) (msg : String),
      st.score ≤ st.total_answered →
      runLoop perm fuel roundIdx cur st inputs = .quit st' msg →
      st'.score ≤ st'.total_answered ∧ st.score ≤ st'.score ∧
      st.total_answered ≤ st'.total_answered := by
  induction fuel with
  | zero =>
    intro roundIdx cur st inputs st' msg hle hrun
    simp [runLoop] at hrun
  | succ n ih =>
    intro roundIdx cur st inputs st' msg hle hrun
    cases cur with
    | nil =>
      simp only [runLoop] at hrun
      exact ih _ _ _ _ _ _ hle hrun
    | cons q qs =>
      simp only [runLoop] at hrun
      cases hask : ask_for_choice inputs with
      | none =>
        rw [hask] at hrun
        simp at hrun
      | some pr =>
        obtain ⟨choice, rest⟩ := pr
        rw [hask] at hrun
        dsimp only at hrun
        cases hstep : feedbackStep q st choice with
        | quit m =>
          rw [hstep] at hrun
          simp only [LoopResult.quit.injEq] at hrun
          obtain ⟨h1, _⟩ := hrun
          subst h1
          exact ⟨hle, le_refl _, le_refl _⟩
        | cont st2 out =>
          rw [hstep] at hrun
          simp only [] at hrun
          have hcnt := feedback_counters q st choice st2 out hstep
          have hle2 : st2.score ≤ st2.total_answered := by
            rcases hcnt with ⟨h1, h2⟩ | ⟨h1, h2 | h2⟩ <;> omega
          obtain ⟨a, b, c⟩ := ih _ _ _ _ _ _ hle2 hrun
          refine ⟨a, ?_, ?_⟩ <;>
            rcases hcnt with ⟨h1, h2⟩ | ⟨h1, h2 | h2⟩ <;> omega
        | oob =>
          rw [hstep] at hrun
          simp at hrun

/-- Claim C9: the answer resolution can fail out of range only when
correct_option_key has no valid option index: any question with four options
and a key among a-d yields a successful lookup; a CLI feedback failure forces
an unmappable key; on the actual bank neither the CLI feedback path nor the
HTTP submit handler can fail. -/
theorem resolver_oob_unreachable :
    (∀ q : Question, q.correct_option_key ∈ LETTER_KEYS → q.options.length = 4 →
      ∃ i t, LETTER_KEYS.indexOf? q.correct_option_key = some i ∧
        q.options.get? i = some t) ∧
    (∀ (q : Question) (st : CliState) (choice : String),
      feedbackStep q st choice = .oob →
      LETTER_KEYS.indexOf? q.correct_option_key = none ∨
      ∃ i, LETTER_KEYS.indexOf? q.correct_option_key = some i ∧
        q.options.get? i = none) ∧
    (∀ q ∈ build_questions, ∀ (st : CliState) (choice : String),
      isValidToken choice = true → feedbackStep q st choice ≠ .oob) ∧
    (∀ (i : Fin 5) (ans : String), (submit_answer ⟨(i.1 : Int), ans⟩).isOk = true) := by
  refine ⟨?_, ?_, ?_, ?_⟩
  · intro q hk hl
    simp only [LETTER_KEYS, List.mem_cons, List.not_mem_nil, or_false] at hk
    rcases hk with h | h | h | h <;> rw [h] <;>
      exact ⟨_, q.options.get ⟨_, by omega⟩, rfl, List.get?_eq_get (by omega)⟩
  · intro q st choice h
    unfold feedbackStep at h
    split at h
    · simp at h
    · split at h
      · simp at h
      · split at h
        · simp at h
        · split at h
          · next heq => exact .inl heq
          · next i heq =>
            split at h
            · next heq2 => exact .inr ⟨i, heq, heq2⟩
            · simp at h
  · intro q hq st choice hv
    simp only [isValidToken, LETTER_KEYS, Bool.or_eq_true, beq_iff_eq,
      decide_eq_true_eq, List.mem_cons, List.not_mem_nil, or_false] at hv
    fin_cases hq <;>
      rcases hv with (rfl | rfl) | (rfl | rfl | rfl | rfl) <;>
        exact fun h => IterResult.noConfusion h
  · intro i ans
    rw [submit_answer_ok]
    rfl

/-- Claim C9 witness: on the first bank question an accepted letter never
reaches the defensive failure, and the submit handler succeeds. -/
theorem resolver_oob_unreachable_witness :
    feedbackStep (build_questions.get ⟨0, by decide⟩) ⟨0, 0⟩ "a" ≠ .oob ∧
    (submit_answer ⟨0, "b"⟩).isOk = true := by
  obtain ⟨-, -, h3, h4⟩ := resolver_oob_unreachable
  exact ⟨h3 _ (by decide) ⟨0, 0⟩ "a" (by decide), h4 ⟨0, by decide⟩ "b"⟩

/-- An answered question, that is a choice that is neither q nor s, always
raises total_answered by exactly one and score by at most one when the loop
body continues. -/
lemma feedback_answer_counters (q : Question) (st : CliState) (choice : String)
    (st' : CliState) (out : List String)
    (hq : choice ≠ "q") (hs : choice ≠ "s")
    (h : feedbackStep q st choice = .cont st' out) :
    st'.total_answered = st.total_answered + 1 ∧
    (st'.score = st.score ∨ st'.score = st.score + 1) := by
  unfold feedbackStep at h
  rw [if_neg hq, if_neg hs] at h
  split at h
  · injection h with h1 _
    subst h1
    exact ⟨rfl, Or.inr rfl⟩
  · split at h
    · simp at h
    · split at h
      · simp at h
      · injection h with h1 _
        subst h1
        exact ⟨rfl, Or.inl rfl⟩

/-- The skip token leaves the state untouched and prints only the skip
line. -/
lemma feedback_skip_eq (q : Question) (st : CliState) (st' : CliState)
    (out : List String) (h : feedbackStep q st "s" = .cont st' out) :
    st' = st ∧ out = [skippedMessage] := by
  unfold feedbackStep at h
  rw [if_neg (by decide), if_pos rfl] at h
  injection h with h1 h2
  exact ⟨h1.symm, h2.symm⟩

/-- Claim C10: an answered question, one of the letter choices a-d,
raises total_answered by exactly one and score by at most one; a skip
changes neither counter; every continue step moves the counters one of
those two ways, so both are non-decreasing; and along any run score ≤
total_answered is preserved with a terminal tally dominating the starting
one (both counters are naturals, hence ≥ 0). -/
theorem counters_monotone :
    (∀ (q : Question) (st : CliState) (choice : String) (st' : CliState)
        (out : List String),
      choice ∈ LETTER_KEYS →
      feedbackStep q st choice = .cont st' out →
      st'.total_answered = st.total_answered + 1 ∧
      (st'.score = st.score ∨ st'.score = st.score + 1)) ∧
    (∀ (q : Question) (st : CliState) (st' : CliState) (out : List String),
      feedbackStep q st "s" = .cont st' out → st' = st ∧ out = [skippedMessage]) ∧
    (∀ (q : Question) (st : CliState) (choice : String) (st' : CliState)
        (out : List String),
      feedbackStep q st choice = .cont st' out →
      (st'.total_answered = st.total_answered ∧ st'.score = st.score) ∨
      (st'.total_answered = st.total_answered + 1 ∧
        (st'.score = st.score ∨ st'.score = st.score + 1))) ∧
    (∀ (perm : Nat → List Question) (fuel roundIdx : Nat) (cur : List Question)
        (st : CliState) (inputs : List String) (st' : CliState) (msg : String),
      st.score ≤ st.total_answered →
      runLoop perm fuel roundIdx cur st inputs = .quit st' msg →
      st'.score ≤ st'.total_answered ∧ st.score ≤ st'.score ∧
      st.total_answered ≤ st'.total_answered) := by
  refine ⟨?_, feedback_skip_eq, feedback_counters,
    fun perm fuel => runLoop_counters perm fuel⟩
  intro q st choice st' out hmem h
  have hq : choice ≠ "q" := by
    rintro rfl
    simp [LETTER_KEYS] at hmem
  have hs : choice ≠ "s" := by
    rintro rfl
    simp [LETTER_KEYS] at hmem
  exact feedback_answer_counters q st choice st' out hq hs h

/-- Claim C10 witness: answering the first question wrongly moves the
counters from 0 of 0 to 0 of 1, total_answered up by exactly one and score
unchanged, and the terminal tally after quitting satisfies the bound. -/
theorem counters_monotone_witness :
    ((⟨0, 1⟩ : CliState).total_answered = (⟨0, 0⟩ : CliState).total_answered + 1 ∧
      ((⟨0, 1⟩ : CliState).score = (⟨0, 0⟩ : CliState).score ∨
       (⟨0, 1⟩ : CliState).score = (⟨0, 0⟩ : CliState).score + 1)) ∧
    (⟨0, 1⟩ : CliState).score ≤ (⟨0, 1⟩ : CliState).total_answered :=
  ⟨counters_monotone.1 (build_questions.get ⟨0, by decide⟩) ⟨0, 0⟩ "b" ⟨0, 1⟩
      [incorrectMessage "c" ".py",
       explanationMessage ".py is the standard extension for Python source files.",
       scoreMessage 0 1] (by decide) (by decide),
   (counters_monotone.2.2.2 (fun _ => build_questions) 3 1 build_questions ⟨0, 0⟩
      ["b", "q"] ⟨0, 1⟩ (exitMessage 1 0) (by decide) (by decide)).1⟩

end Quiz
